import Mathlib

/-!
Verification of the otm-pi Frame Acquisition & Streaming Engine
(src/python_scripts/camera_web.py and src/python_scripts/camera_feed.py)
against its natural-language specification.

Each definition below is a shallow embedding of a concrete piece of the
Python source; the doc comment on every definition names the file, the
function and the lines it was translated from.  Machine arithmetic is
modelled with Int/Nat/Rat; Python exceptions become Option/Except or
explicit error results; the stateful acquisition loop becomes explicit
state passing together with a trace of the observable actions each
iteration performs, in the order the source performs them.
-/

namespace OtmPi

/-! ## Python slicing (numpy basic slicing on one axis)

The ROI crop in the source uses numpy slices out of possibly-clipped
bounds, so we embed the semantics of a Python slice object a[i:j]
(step 1) on an axis of length len: negative endpoints count from the
end, endpoints are clamped into [0, len], and the resulting length is
never negative. -/

/-- Effective index of a Python slice endpoint i against axis length len:
negative i counts from the end; the result is clamped to [0, len]. -/
def pySliceIdx (len i : Int) : Int :=
  if i < 0 then max 0 (len + i) else min i len

/-- Number of elements selected by the Python slice a[i:j] (step 1) on an
axis of length len. -/
def pySliceLen (len i j : Int) : Int :=
  max 0 (pySliceIdx len j - pySliceIdx len i)

/-! ## ROI crop stage -/

/-- Region of interest (x, y, w, h) as configured (camera_web.py lines
673-681 parse it as four ints, any sign). -/
structure Roi where
  x : Int
  y : Int
  w : Int
  h : Int
deriving DecidableEq, Repr

/-- ROI crop stage of CameraThread._loop (src/python_scripts/camera_web.py
lines 240-244, identical in read_and_encode lines 307-311 and in the
Daheng variants): given a frame of shape (rows, cols) = frame.shape[:2],
when the origin (x, y) lies inside the frame the frame is replaced by the
slice frame[y : min(y+h, rows), x : min(x+w, cols)]; otherwise the frame
passes through unchanged.  Returns the resulting (rows, cols). -/
def cropDims (rows cols : Int) (r : Roi) : Int × Int :=
  if 0 ≤ r.x ∧ r.x < cols ∧ 0 ≤ r.y ∧ r.y < rows then
    (pySliceLen rows r.y (min (r.y + r.h) rows),
     pySliceLen cols r.x (min (r.x + r.w) cols))
  else
    (rows, cols)

/-! ## Flip stage -/

/-- Flip stage shared by every capture path (camera_web.py lines 246-252,
313-319, 486-492, 541-547; camera_feed.py lines 99-104 and 321-326): the
external cv2.flip operation is kept abstract as flipOp (its integer
argument is the cv2 flip code), and the stage dispatches on the
flip_mode string exactly as the if/elif chain in the source does;
any unmatched mode falls through and the frame is returned unchanged. -/
def applyFlip {α : Type} (flipOp : Int → α → α) (mode : String) (frame : α) : α :=
  if mode = "h" then flipOp 1 frame
  else if mode = "v" then flipOp 0 frame
  else if mode = "hv" ∨ mode = "vh" ∨ mode = "both" then flipOp (-1) frame
  else frame

/-! ## JPEG quality -/

/-- Quality sanitisation in create_camera_from_config
(src/python_scripts/camera_feed.py line 457):
jq_val = max(10, min(100, jq_val)). -/
def feedUsedQuality (q : Int) : Int :=
  max 10 (min 100 q)

/-- Quality actually stored, and later passed to cv2.imencode, by
camera_web.py: create_app reads jpeg_quality with _clean_int (default 80,
no clamp, lines 655-667) and CameraThread.__init__ line 188 stores
int(jpeg_quality) if jpeg_quality else 80 — Python truthiness replaces
only the value 0, every other value is kept as-is.  The encode call
(line 268) uses this stored value directly. -/
def webUsedQuality (q : Int) : Int :=
  if q ≠ 0 then q else 80

/-! ## Exposure unit inference -/

/-- Exposure value stored and pushed by DahengCameraThread
_apply_pending_commands (src/python_scripts/camera_feed.py lines 345-352):
v_us = v * 1000.0 if v < 100 else v; then ExposureTime.set(v_us) and
self.exposure = v_us. -/
def feedExposureStored (v : Rat) : Rat :=
  if v < 100 then v * 1000 else v

/-- Exposure value stored and pushed by DahengCameraThread.set_exposure
(src/python_scripts/camera_web.py lines 591-604): v < 1 → v*1000,
elif v < 100 → v*1000, else v; then ExposureTime.set(value_us) and
self.exposure = value_us. -/
def webExposureStored (v : Rat) : Rat :=
  if v < 1 then v * 1000
  else if v < 100 then v * 1000
  else v

/-! ## camera_web.CameraThread session state

A session of camera_web.CameraThread (src/python_scripts/camera_web.py
lines 175-375).  capGen counts how many times a capture handle has been
opened, so a close-and-reopen of the backend is observable as a bump of
capGen. -/

structure WebCamState where
  running : Bool
  capOpen : Bool
  capGen : Nat
  threadAlive : Bool
  latestJpeg : Option (List Nat)
  width : Option Int
  height : Option Int
  fps : Option Int
  noBuffer : Bool
deriving DecidableEq, Repr

/-- CameraThread.__init__ (camera_web.py lines 176-208): latest_jpeg is
None, running is False, no thread, no capture handle. -/
def webInit (w h f : Option Int) (noBuffer : Bool) : WebCamState :=
  { running := false, capOpen := false, capGen := 0, threadAlive := false,
    latestJpeg := none, width := w, height := h, fps := f,
    noBuffer := noBuffer }

/-- CameraThread.start (camera_web.py lines 210-227): returns early when
already running; opens a new capture handle; raises when it cannot be
opened (openOk = false) with running still false and no thread; on
success sets running and spawns the loop thread unless in no-buffer
mode.  The first component is the raised error, if any. -/
def webStart (openOk : Bool) (st : WebCamState) : Option String × WebCamState :=
  if st.running then (none, st)
  else
    let st1 := { st with capOpen := openOk, capGen := st.capGen + 1 }
    if ¬ openOk then (some "Cannot open camera", st1)
    else (none, { st1 with running := true, threadAlive := ¬ st.noBuffer })

/-- Publication of an encoded frame by the acquisition loop
(camera_web.py lines 270-272): latest_jpeg is overwritten under the
frame lock. -/
def webPublish (b : List Nat) (st : WebCamState) : WebCamState :=
  { st with latestJpeg := some b }

/-- CameraThread.get_frame (camera_web.py lines 344-346): returns
latest_jpeg under the frame lock. -/
def webGetFrame (st : WebCamState) : Option (List Nat) :=
  st.latestJpeg

/-- CameraThread.stop (camera_web.py lines 359-364): clears running,
releases and drops the capture handle, drops the thread handle.
latest_jpeg is not touched. -/
def webStop (st : WebCamState) : WebCamState :=
  { st with running := false, capOpen := false, threadAlive := false }

/-- Python truthiness update used by reconfigure in every class
(for example camera_web.py lines 371-373: if width: self.width = width) —
the stored value is replaced only when the argument is given and nonzero. -/
def truthyUpd (cur arg : Option Int) : Option Int :=
  match arg with
  | some v => if v ≠ 0 then some v else cur
  | none => cur

/-- Observable actions of a reconfigure call. -/
inductive ReconfAct where
  | stopAct
  | startAct
  | enqueueFormat
deriving DecidableEq, Repr

/-- CameraThread.reconfigure (camera_web.py lines 366-375): remembers
was_running, stops the session if it was running, applies the truthy
updates to width/height/fps, and restarts if it was running.  Returns
the new state together with the trace of stop/start actions performed. -/
def webReconfigure (openOk : Bool) (w h f : Option Int) (st : WebCamState) :
    WebCamState × List ReconfAct :=
  let wasRunning := st.running
  let (st1, tr1) :=
    if wasRunning then (webStop st, [ReconfAct.stopAct]) else (st, [])
  let st2 := { st1 with width := truthyUpd st1.width w,
                        height := truthyUpd st1.height h,
                        fps := truthyUpd st1.fps f }
  if wasRunning then ((webStart openOk st2).2, tr1 ++ [ReconfAct.startAct])
  else (st2, tr1)

/-! ## camera_feed.DahengCameraThread: command queue and session state -/

/-- Entries of the command queue _cmd_q
(src/python_scripts/camera_feed.py lines 390-401: set_exposure, set_gain
and reconfigure put (kind, value) pairs into a FIFO queue.Queue). -/
inductive Cmd where
  | setExposure (v : Rat)
  | setGain (v : Rat)
  | setFormat (w h f : Option Int)
deriving DecidableEq, Repr

/-- State of a camera_feed.DahengCameraThread session (lines 163-306).
camGen counts device-handle opens so a reopen is observable;
appliedLog records, in order, every command the acquisition thread has
dequeued and processed (lines 337-374). -/
structure FeedDhState where
  running : Bool
  stopRequested : Bool
  camOpen : Bool
  camGen : Nat
  threadAlive : Bool
  latest : Option (Int × Int)
  width : Option Int
  height : Option Int
  fps : Option Int
  safeMode : Bool
  cmdQueue : List Cmd
  appliedLog : List Cmd
  consecutiveEmpty : Nat
  exposure : Option Rat
  gain : Option Rat
deriving DecidableEq, Repr

/-- Processing of one dequeued command by _apply_pending_commands
(camera_feed.py lines 344-374): set_exposure applies the unit-inference
rule and stores the microsecond value; set_gain stores the value;
set_format pushes the format to the backend unless safe_mode is set
(line 358) and changes no stored session field.  Every dequeued command
is recorded in appliedLog in processing order. -/
def applyCmd (st : FeedDhState) (c : Cmd) : FeedDhState :=
  let st1 := { st with appliedLog := st.appliedLog ++ [c] }
  match c with
  | Cmd.setExposure v => { st1 with exposure := some (feedExposureStored v) }
  | Cmd.setGain v => { st1 with gain := some v }
  | Cmd.setFormat _ _ _ => st1

/-- Front-to-back processing of a list of dequeued commands, in the
order the while-not-empty loop of _apply_pending_commands (lines
339-343) dequeues them from the FIFO queue. -/
def applyCmds (st : FeedDhState) : List Cmd → FeedDhState
  | [] => st
  | c :: rest => applyCmds (applyCmd st c) rest

/-- DahengCameraThread._apply_pending_commands (camera_feed.py lines
337-374): drains the command queue completely, applying each entry in
FIFO order. -/
def applyPending (st : FeedDhState) : FeedDhState :=
  applyCmds { st with cmdQueue := [] } st.cmdQueue

/-- DahengCameraThread.reconfigure (camera_feed.py lines 380-388):
applies the truthy updates to the stored width/height/fps and enqueues a
single set_format command carrying the updated stored values.  It does
not touch running, the device handle, or the thread. -/
def feedDhReconfigure (w h f : Option Int) (st : FeedDhState) :
    FeedDhState × List ReconfAct :=
  let nw := truthyUpd st.width w
  let nh := truthyUpd st.height h
  let nf := truthyUpd st.fps f
  ({ st with width := nw, height := nh, fps := nf,
             cmdQueue := st.cmdQueue ++ [Cmd.setFormat nw nh nf] },
   [ReconfAct.enqueueFormat])

/-! ## Stall recovery (camera_feed.DahengCameraThread._loop) -/

/-- Python expression (self.fps or 15): a falsy fps (None or 0) is
replaced by the fallback. -/
def orTruthy (v : Option Int) (d : Int) : Int :=
  match v with
  | some x => if x ≠ 0 then x else d
  | none => d

/-- Recovery trigger threshold max(10, int((self.fps or 15) * 1.0))
(camera_feed.py line 281). -/
def recoveryThreshold (fps : Option Int) : Int :=
  max 10 (orTruthy fps 15)

/-- Backend calls made by the recovery block, in order. -/
inductive RecEvent where
  | softStreamOff
  | softStreamOn
  | enumerateDevices
  | reopenDevice
  | escStreamOn
deriving DecidableEq, Repr

/-- Stall-recovery block at the bottom of DahengCameraThread._loop
(camera_feed.py lines 280-306), as a function of the state and of
oracles telling which backend calls would raise.  When consecutive_empty
has reached the threshold and a handle exists: stream_off is attempted
with its exception swallowed by an inner try (lines 285-289), then
stream_on is attempted on the same handle; on success the counter is
reset (softOnOk).  If that stream_on raises, the except branch (lines
293-306) enumerates devices afresh, reopens by the same serial/index
(reopenOk; on success the handle is replaced), calls stream_on on the
new handle (escOnOk) and resets the counter; any exception there is only
printed.  The block never touches running or the stop event.  Returns
the new state and the ordered trace of backend calls attempted. -/
def recoveryStep (_softOffOk softOnOk reopenOk escOnOk : Bool)
    (st : FeedDhState) : FeedDhState × List RecEvent :=
  if (st.consecutiveEmpty : Int) ≥ recoveryThreshold st.fps then
    if st.camOpen then
      if softOnOk then
        ({ st with consecutiveEmpty := 0 },
         [RecEvent.softStreamOff, RecEvent.softStreamOn])
      else
        if reopenOk then
          let st1 := { st with camGen := st.camGen + 1, camOpen := true }
          if escOnOk then
            ({ st1 with consecutiveEmpty := 0 },
             [RecEvent.softStreamOff, RecEvent.softStreamOn,
              RecEvent.enumerateDevices, RecEvent.reopenDevice,
              RecEvent.escStreamOn])
          else
            (st1,
             [RecEvent.softStreamOff, RecEvent.softStreamOn,
              RecEvent.enumerateDevices, RecEvent.reopenDevice,
              RecEvent.escStreamOn])
        else
          (st,
           [RecEvent.softStreamOff, RecEvent.softStreamOn,
            RecEvent.enumerateDevices, RecEvent.reopenDevice])
    else (st, [])
  else (st, [])

/-! ## Acquisition-loop iterations with event traces -/

/-- Observable actions of one loop iteration, in execution order. -/
inductive LoopEvent where
  | applyCmdEv (c : Cmd)
  | acquireEv
  | cropEv
  | flipEv
  | downscaleEv
  | encodeEv
  | publishEv
  | intervalEv
deriving DecidableEq, Repr

/-- Pipeline configuration of a camera_web.CameraThread as stored by
__init__ (camera_web.py lines 188-195): downscale already forced ≥ 1 and
frame_skip already forced ≥ 0 there. -/
structure WebCfg where
  roi : Option Roi
  flipMode : String
  downscale : Int
  frameSkip : Nat
  jpegQuality : Int
deriving DecidableEq, Repr

/-- Mutable loop state of CameraThread._loop and its metrics dict
(camera_web.py lines 192, 196-208): the frame counter, the published
frame (its dimensions), frames_total, the last iteration timestamp and
the interval/fps metrics. -/
structure WebLoopState where
  frameCounter : Nat
  latestJpeg : Option (Int × Int)
  framesTotal : Nat
  lastTimestamp : Option Rat
  frameIntervalMs : Rat
  fpsEma : Rat
deriving DecidableEq, Repr

/-- Trace contribution of the ROI crop stage: the stage runs exactly
when a ROI is configured (the guard at camera_web.py line 240). -/
def trCropFn (roi : Option Roi) : List LoopEvent :=
  match roi with
  | some _ => [LoopEvent.cropEv]
  | none => []

/-- Trace contribution of the flip stage: a cv2.flip call happens
exactly when flip_mode names one of the recognised modes
(camera_web.py lines 246-252). -/
def trFlipFn (mode : String) : List LoopEvent :=
  if mode = "h" ∨ mode = "v" ∨ mode = "hv" ∨ mode = "vh" ∨ mode = "both"
  then [LoopEvent.flipEv] else []

/-- Trace contribution of the downscale stage: cv2.resize runs exactly
when downscale > 1 (camera_web.py lines 255-256). -/
def trDownFn (d : Int) : List LoopEvent :=
  if d > 1 then [LoopEvent.downscaleEv] else []

/-- Interval-metric update of a skipped iteration (camera_web.py lines
260-264): frame_interval_ms is recomputed when a previous timestamp
exists, and last_timestamp is always set to the current clock
reading. -/
def skipMetricsUpd (tNow : Rat) (st : WebLoopState) : WebLoopState :=
  match st.lastTimestamp with
  | some last =>
    { st with frameIntervalMs := (tNow - last) * 1000,
              lastTimestamp := some tNow }
  | none => { st with lastTimestamp := some tNow }

/-- Metrics update of a full (non-skipped) iteration (camera_web.py
lines 279-287): when a previous timestamp exists the interval and the
0.85/0.15 EMA fps are recomputed (the EMA is seeded by the first
instantaneous value while fps is still 0), and last_timestamp is always
set to the iteration start time. -/
def runMetricsUpd (tLoopStart : Rat) (st : WebLoopState) : WebLoopState :=
  match st.lastTimestamp with
  | some last =>
    let interval := tLoopStart - last
    let withInt := { st with frameIntervalMs := interval * 1000 }
    let withFps :=
      if interval > 0 then
        { withInt with fpsEma :=
            if withInt.fpsEma ≠ 0 then
              (85 : Rat) / 100 * withInt.fpsEma +
                (15 : Rat) / 100 * (1 / interval)
            else 1 / interval }
      else withInt
    { withFps with lastTimestamp := some tLoopStart }
  | none => { st with lastTimestamp := some tLoopStart }

/-- One iteration of CameraThread._loop (camera_web.py lines 231-288),
with the acquisition and encode results supplied as oracles (acq is the
shape (rows, cols) of the frame cap.read returned, or none on a failed
read) and the clock readings tLoopStart (line 232) and tNow (line 261)
as inputs.  Emits, in source order: acquireEv for the cap.read call;
cropEv when a ROI is configured (lines 240-244); flipEv when flip_mode
names an actual cv2.flip call (lines 246-252); downscaleEv when
downscale > 1 (lines 255-256); then increments the frame counter and,
on a skipped iteration (frame_skip truthy and counter % (frame_skip+1)
≠ 1, lines 258-266), updates only the interval metric (intervalEv) and
continues; otherwise encodes (encodeEv), publishes on encode success
(publishEv, lines 270-272) and updates the metrics including the
interval accounting (intervalEv, lines 274-287). -/
def webLoopIter (cfg : WebCfg) (st : WebLoopState)
    (acq : Option (Int × Int)) (encOk : Bool) (tLoopStart tNow : Rat) :
    WebLoopState × List LoopEvent :=
  match acq with
  | none => (st, [LoopEvent.acquireEv])
  | some shape =>
    let shape1 :=
      match cfg.roi with
      | some r => cropDims shape.1 shape.2 r
      | none => shape
    let shape2 :=
      if cfg.downscale > 1 then
        (shape1.1 / cfg.downscale, shape1.2 / cfg.downscale)
      else shape1
    let pre := LoopEvent.acquireEv ::
      (trCropFn cfg.roi ++ trFlipFn cfg.flipMode ++ trDownFn cfg.downscale)
    let c := st.frameCounter + 1
    let st1 := { st with frameCounter := c }
    if cfg.frameSkip ≠ 0 ∧ c % (cfg.frameSkip + 1) ≠ 1 then
      (skipMetricsUpd tNow st1, pre ++ [LoopEvent.intervalEv])
    else
      let st2 :=
        if encOk then { st1 with latestJpeg := some shape2 } else st1
      let st3 := { st2 with framesTotal := st2.framesTotal + 1 }
      (runMetricsUpd tLoopStart st3,
       pre ++ (LoopEvent.encodeEv ::
         (if encOk then [LoopEvent.publishEv] else [])) ++
         [LoopEvent.intervalEv])

/-- Enqueue side of DahengCameraThread.set_exposure (camera_feed.py
lines 390-395): puts a set_exposure entry at the back of the FIFO
command queue. -/
def feedDhSetExposure (v : Rat) (st : FeedDhState) : FeedDhState :=
  { st with cmdQueue := st.cmdQueue ++ [Cmd.setExposure v] }

/-- Enqueue side of DahengCameraThread.set_gain (camera_feed.py lines
397-401): puts a set_gain entry at the back of the FIFO command
queue. -/
def feedDhSetGain (v : Rat) (st : FeedDhState) : FeedDhState :=
  { st with cmdQueue := st.cmdQueue ++ [Cmd.setGain v] }

/-- DahengCameraThread._capture_once (camera_feed.py lines 308-335):
get_image with a timeout; a None result increments consecutive_empty and
returns; on a frame, convert, flip (cv2.flip only for a recognised
flip_mode), encode, and on encode success publish the bytes and reset
the failure counters.  acq carries the shape of the acquired frame or
none for an empty acquisition; encOk tells whether cv2.imencode
succeeded. -/
def feedCaptureOnce (flipMode : String) (acq : Option (Int × Int))
    (encOk : Bool) (st : FeedDhState) : FeedDhState × List LoopEvent :=
  match acq with
  | none =>
    ({ st with consecutiveEmpty := st.consecutiveEmpty + 1 },
     [LoopEvent.acquireEv])
  | some shape =>
    let doFlip := flipMode = "h" ∨ flipMode = "v" ∨
      flipMode = "hv" ∨ flipMode = "vh" ∨ flipMode = "both"
    let tr := [LoopEvent.acquireEv] ++
      (if doFlip then [LoopEvent.flipEv] else []) ++ [LoopEvent.encodeEv]
    if encOk then
      ({ st with latest := some shape, consecutiveEmpty := 0 },
       tr ++ [LoopEvent.publishEv])
    else (st, tr)

/-- One iteration of DahengCameraThread._loop (camera_feed.py lines
267-306): apply the pending commands, capture once, then run the
stall-recovery check.  The returned trace holds the loop events in
execution order: one applyCmdEv per drained command, in FIFO order,
followed by the acquisition and pipeline events of _capture_once (the
recovery trace is that of recoveryStep). -/
def feedDhLoopIter (flipMode : String) (acq : Option (Int × Int))
    (encOk softOffOk softOnOk reopenOk escOnOk : Bool)
    (st : FeedDhState) : FeedDhState × List LoopEvent :=
  let cap := feedCaptureOnce flipMode acq encOk (applyPending st)
  let rec1 := recoveryStep softOffOk softOnOk reopenOk escOnOk cap.1
  (rec1.1, st.cmdQueue.map LoopEvent.applyCmdEv ++ cap.2)

/-! ## Session start (error paths) -/

/-- Fatal-to-start errors surfaced synchronously by start(). -/
inductive StartErr where
  | noDevices
  | openFailed
  | indexOutOfRange
  | streamStartFailed
deriving DecidableEq, Repr

/-- State of a camera_web.DahengCameraThread session relevant to
start() (camera_web.py lines 384-464). -/
structure WebDhState where
  running : Bool
  threadAlive : Bool
  devOpen : Bool
  devGen : Nat
  serial : Option String
  index : Int
  noBuffer : Bool
deriving DecidableEq, Repr

/-- DahengCameraThread.start (camera_web.py lines 422-464): enumerate
devices (num found); raise when none are found (line 426); with a
serial, open by serial and raise on failure (lines 427-432); otherwise
check the 1-based index against the device count and raise when out of
range (lines 434-435), then open by index (an SDK failure propagates,
modelled by openOk); the auto-feature and width/height/fps pushes are
best-effort; then stream_on (line 460, raises when streamOk is false);
only after that running is set and the loop thread is spawned unless in
no-buffer mode.  Returns the raised error, if any, with the state as
left by the call. -/
def webDhStart (num : Nat) (openOk streamOk : Bool) (st : WebDhState) :
    Option StartErr × WebDhState :=
  if num = 0 then (some StartErr.noDevices, st)
  else
    let opened :=
      match st.serial with
      | some _ =>
        if openOk then
          (none, { st with devOpen := true, devGen := st.devGen + 1 })
        else (some StartErr.openFailed, st)
      | none =>
        if st.index < 1 ∨ st.index > (num : Int) then
          (some StartErr.indexOutOfRange, st)
        else if openOk then
          (none, { st with devOpen := true, devGen := st.devGen + 1 })
        else (some StartErr.openFailed, st)
    match opened with
    | (some e, st1) => (some e, st1)
    | (none, st1) =>
      if ¬ streamOk then (some StartErr.streamStartFailed, st1)
      else (none, { st1 with running := true, threadAlive := ¬ st.noBuffer })

/-- DahengCameraThread.start in camera_feed.py (lines 192-250): returns
early when already running; clears the stop event; enumerates devices
and raises when none are found (lines 196-199); opens by serial or
index, wrapping any failure in a RuntimeError (lines 201-209); the
safe-mode-guarded configuration pushes are best-effort; stream_on
failure is wrapped in a RuntimeError (lines 242-246); only then running
is set and the capture thread is spawned (lines 247-250). -/
def feedDhStart (num : Nat) (openOk streamOk : Bool) (st : FeedDhState) :
    Option StartErr × FeedDhState :=
  if st.running then (none, st)
  else
    let st0 := { st with stopRequested := false }
    if num = 0 then (some StartErr.noDevices, st0)
    else if ¬ openOk then (some StartErr.openFailed, st0)
    else
      let st1 := { st0 with camOpen := true, camGen := st.camGen + 1 }
      if ¬ streamOk then (some StartErr.streamStartFailed, st1)
      else (none, { st1 with running := true, threadAlive := true })

/-- OpenCVCameraThread.start (camera_feed.py lines 63-79): raises when
OpenCV is missing; returns early when already running; opens the device
and raises when it cannot be opened, with running still false and no
thread spawned; on success pushes the width/height/fps properties, sets
running and spawns the loop thread. -/
def feedCvStart (cv2Present openOk : Bool) (st : WebCamState) :
    Option StartErr × WebCamState :=
  if ¬ cv2Present then (some StartErr.openFailed, st)
  else if st.running then (none, st)
  else
    let st1 := { st with capOpen := openOk, capGen := st.capGen + 1 }
    if ¬ openOk then (some StartErr.openFailed, st1)
    else (none, { st1 with running := true, threadAlive := true })

/-! # Theorems for the claims -/

/-- Claim C1 as stated is false on the code: in camera_web.CameraThread,
stop() (lines 359-364) clears running and releases the capture handle
but does not clear latest_jpeg, so after a frame has been published and
stop() has been called, get_frame() still returns the published bytes
rather than None. -/
theorem C1_counterexample :
    (webStop (webPublish [7]
        (webStart true (webInit none none none false)).2)).running = false ∧
    webGetFrame (webStop (webPublish [7]
        (webStart true (webInit none none none false)).2)) = some [7] ∧
    webGetFrame (webStop (webPublish [7]
        (webStart true (webInit none none none false)).2)) ≠ none := by
  refine ⟨rfl, rfl, ?_⟩
  decide

/-- Claim C1 amended: get_frame() returns None before the first
successful acquisition has published a frame (a freshly constructed and
even a freshly started session holds no frame); stop() leaves the
published frame in place, so immediately after stop() get_frame()
returns exactly what it returned before the stop — the last published
frame, or None if nothing was ever published. -/
theorem C1_amended :
    (∀ w h f nb ok, webGetFrame (webStart ok (webInit w h f nb)).2 = none) ∧
    (∀ st, webGetFrame (webStop st) = webGetFrame st) ∧
    (∀ st b, webGetFrame (webPublish b st) = some b) := by
  refine ⟨?_, fun st => rfl, fun st b => rfl⟩
  intro w h f nb ok
  cases ok <;> rfl

/-- Claim C2 as stated is false on the code: camera_web stores and uses
the configured jpeg_quality without clamping (CameraThread.__init__ line
188 only replaces a falsy 0 by 80), so a started camera_web session with
quality input 5 encodes at quality 5, not clamp(5, 10, 100) = 10.  The
clamp does happen in camera_feed's create_camera_from_config. -/
theorem C2_counterexample :
    webUsedQuality 5 = 5 ∧ webUsedQuality 5 ≠ max 10 (min 100 5) ∧
    feedUsedQuality 5 = 10 := by
  decide

/-- Claim C2 amended: sessions built by camera_feed's
create_camera_from_config use encode quality clamp(q, 10, 100) (below 10
becomes 10, above 100 becomes 100, in-range unchanged); sessions built
by camera_web's create_app use the configured quality unclamped — any
nonzero q is used as-is. -/
theorem C2_amended (q : Int) :
    (q < 10 → feedUsedQuality q = 10) ∧
    (100 < q → feedUsedQuality q = 100) ∧
    (10 ≤ q → q ≤ 100 → feedUsedQuality q = q) ∧
    (q ≠ 0 → webUsedQuality q = q) := by
  refine ⟨?_, ?_, ?_, ?_⟩
  · intro h1; simp only [feedUsedQuality]; omega
  · intro h1; simp only [feedUsedQuality]; omega
  · intro h1 h2; simp only [feedUsedQuality]; omega
  · intro h1; simp [webUsedQuality, h1]

/-- Witness for C2_amended at the spec's own examples 5, 500 and 80, and
at the camera_web divergence point 5. -/
theorem C2_amended_witness :
    feedUsedQuality 5 = 10 ∧ feedUsedQuality 500 = 100 ∧
    feedUsedQuality 80 = 80 ∧ webUsedQuality 5 = 5 :=
  ⟨(C2_amended 5).1 (by decide), (C2_amended 500).2.1 (by decide),
   (C2_amended 80).2.2.1 (by decide) (by decide),
   (C2_amended 5).2.2.2 (by decide)⟩

/-- Claim C4: both Daheng set_exposure paths (camera_feed's
_apply_pending_commands and camera_web's set_exposure) store and push
v*1000 when v < 100 and exactly v when v ≥ 100, and the stored exposure
after a queued set_exposure command is that converted value. -/
theorem C4_exposure_unit_rule (v : Rat) :
    (v < 100 → feedExposureStored v = v * 1000 ∧
      webExposureStored v = v * 1000) ∧
    (100 ≤ v → feedExposureStored v = v ∧ webExposureStored v = v) ∧
    (∀ st, (applyCmd st (Cmd.setExposure v)).exposure =
      some (feedExposureStored v)) := by
  refine ⟨?_, ?_, fun st => rfl⟩
  · intro h
    refine ⟨by simp [feedExposureStored, h], ?_⟩
    by_cases h1 : v < 1
    · simp [webExposureStored, h1]
    · simp [webExposureStored, h1, h]
  · intro h
    have h1 : ¬ v < 100 := not_lt.mpr h
    have h2 : ¬ v < 1 := not_lt.mpr (le_trans (by norm_num) h)
    simp [feedExposureStored, webExposureStored, h1, h2]

/-- Witness for C4_exposure_unit_rule at the spec's examples: 50 becomes
50000 and 20000 stays 20000, in both embeddings. -/
theorem C4_witness :
    feedExposureStored 50 = 50000 ∧ webExposureStored 50 = 50000 ∧
    feedExposureStored 20000 = 20000 ∧ webExposureStored 20000 = 20000 := by
  have h1 := (C4_exposure_unit_rule 50).1 (by norm_num)
  have h2 := (C4_exposure_unit_rule 20000).2.1 (by norm_num)
  exact ⟨h1.1.trans (by norm_num), h1.2.trans (by norm_num), h2.1, h2.2⟩

/-- Claim C6 as stated is false on the code: camera_web's
CameraThread.reconfigure (lines 366-375) performs a full stop/start
cycle on a running session — the trace contains a stop action and the
backend capture handle is released and reopened (capGen bumps) — rather
than only enqueuing a set_format command.  (camera_web's
DahengCameraThread.reconfigure, lines 624-632, is the same stop/start
cycle.) -/
theorem C6_counterexample :
    ReconfAct.stopAct ∈ (webReconfigure true (some 800) (some 600) none
      (webStart true (webInit (some 640) (some 480) (some 30) false)).2).2 ∧
    (webReconfigure true (some 800) (some 600) none
      (webStart true (webInit (some 640) (some 480) (some 30) false)).2).1.capGen
      = (webStart true (webInit (some 640) (some 480) (some 30) false)).2.capGen
        + 1 := by
  decide

/-- Claim C6 amended: only camera_feed's DahengCameraThread.reconfigure
behaves as described — for any arguments and any session state it
updates the stored width/height/fps targets (Python truthy updates) and
appends exactly one set_format command carrying the updated targets to
the command queue, leaving the running flag, the stop event, the backend
handle and the thread untouched; the reconfigure of camera_web's two
classes and of camera_feed's OpenCVCameraThread instead performs a
stop/start cycle when the session is running. -/
theorem C6_amended (w h f : Option Int) (st : FeedDhState) :
    (feedDhReconfigure w h f st).1.running = st.running ∧
    (feedDhReconfigure w h f st).1.stopRequested = st.stopRequested ∧
    (feedDhReconfigure w h f st).1.camOpen = st.camOpen ∧
    (feedDhReconfigure w h f st).1.camGen = st.camGen ∧
    (feedDhReconfigure w h f st).1.threadAlive = st.threadAlive ∧
    (feedDhReconfigure w h f st).1.cmdQueue = st.cmdQueue ++
      [Cmd.setFormat (truthyUpd st.width w) (truthyUpd st.height h)
        (truthyUpd st.fps f)] ∧
    (feedDhReconfigure w h f st).1.width = truthyUpd st.width w ∧
    (feedDhReconfigure w h f st).1.height = truthyUpd st.height h ∧
    (feedDhReconfigure w h f st).1.fps = truthyUpd st.fps f ∧
    (feedDhReconfigure w h f st).2 = [ReconfAct.enqueueFormat] :=
  ⟨rfl, rfl, rfl, rfl, rfl, rfl, rfl, rfl, rfl, rfl⟩

/-- Claim C7: the ROI crop stage, for an ROI with nonnegative origin and
positive size lying fully inside the frame, outputs exactly the
requested (w, h) — (rows, cols) = (h, w); for an ROI whose origin falls
outside the frame it passes the frame through unchanged; and being a
total function it never errors. -/
theorem C7_roi_crop (rows cols x y w h : Int) :
    (0 ≤ x → 0 ≤ y → 0 < w → 0 < h → x + w ≤ cols → y + h ≤ rows →
      cropDims rows cols ⟨x, y, w, h⟩ = (h, w)) ∧
    (¬ (0 ≤ x ∧ x < cols ∧ 0 ≤ y ∧ y < rows) →
      cropDims rows cols ⟨x, y, w, h⟩ = (rows, cols)) := by
  constructor
  · intro hx hy hw hh hxw hyh
    have hguard : 0 ≤ x ∧ x < cols ∧ 0 ≤ y ∧ y < rows :=
      ⟨hx, by omega, hy, by omega⟩
    simp only [cropDims, if_pos hguard, pySliceLen, pySliceIdx,
      Prod.mk.injEq]
    constructor <;> (split_ifs <;> omega)
  · intro hg
    simp only [cropDims, if_neg hg]

/-- Witness for C7_roi_crop: a 100×50 ROI at (10, 20) inside a 640×480
frame crops to exactly (rows, cols) = (50, 100); an ROI with origin
x = 650 outside the same frame passes the frame through as
(480, 640). -/
theorem C7_witness :
    cropDims 480 640 ⟨10, 20, 100, 50⟩ = (50, 100) ∧
    cropDims 480 640 ⟨650, 20, 100, 50⟩ = (480, 640) :=
  ⟨(C7_roi_crop 480 640 10 20 100 50).1 (by decide) (by decide)
      (by decide) (by decide) (by decide) (by decide),
   (C7_roi_crop 480 640 650 20 100 50).2 (by decide)⟩

/-- Claim C10: the flip stage shared by every capture path is a no-op
for any flip_mode outside h, v, hv, vh, both — including none and any
unrecognized string — whatever the underlying flip operation is, and it
raises no error (it is a total function). -/
theorem C10_flip_unrecognised_noop {α : Type} (flipOp : Int → α → α)
    (mode : String) (frame : α)
    (h1 : mode ≠ "h") (h2 : mode ≠ "v") (h3 : mode ≠ "hv")
    (h4 : mode ≠ "vh") (h5 : mode ≠ "both") :
    applyFlip flipOp mode frame = frame := by
  simp [applyFlip, h1, h2, h3, h4, h5]

/-- Witness for C10_flip_unrecognised_noop at the modes none and
diagonal with a flip operation that would visibly change the frame. -/
theorem C10_witness :
    applyFlip (fun _ n => n + 1) "none" (0 : Nat) = 0 ∧
    applyFlip (fun _ n => n + 1) "diagonal" (0 : Nat) = 0 :=
  ⟨C10_flip_unrecognised_noop (fun _ n => n + 1) "none" 0 (by decide)
      (by decide) (by decide) (by decide) (by decide),
   C10_flip_unrecognised_noop (fun _ n => n + 1) "diagonal" 0 (by decide)
      (by decide) (by decide) (by decide) (by decide)⟩

/-- Processing one command appends it to the applied log. -/
theorem applyCmd_appliedLog (st : FeedDhState) (c : Cmd) :
    (applyCmd st c).appliedLog = st.appliedLog ++ [c] := by
  cases c <;> rfl

/-- Processing one command leaves the queue untouched. -/
theorem applyCmd_cmdQueue (st : FeedDhState) (c : Cmd) :
    (applyCmd st c).cmdQueue = st.cmdQueue := by
  cases c <;> rfl

/-- Draining a list of commands appends it, in order, to the applied
log. -/
theorem applyCmds_appliedLog (cs : List Cmd) (st : FeedDhState) :
    (applyCmds st cs).appliedLog = st.appliedLog ++ cs := by
  induction cs generalizing st with
  | nil => simp [applyCmds]
  | cons c rest ih =>
    simp [applyCmds, ih, applyCmd_appliedLog]

/-- Draining a list of commands leaves the stored queue field as it
was. -/
theorem applyCmds_cmdQueue (cs : List Cmd) (st : FeedDhState) :
    (applyCmds st cs).cmdQueue = st.cmdQueue := by
  induction cs generalizing st with
  | nil => rfl
  | cons c rest ih => simp [applyCmds, ih, applyCmd_cmdQueue]

/-- Claim C8: draining the command queue applies the pending commands in
exact FIFO submission order (the applied log is extended by the queue
contents, in order, and the queue ends empty); two commands enqueued by
set_exposure then set_gain are applied in that submission order; and in
a loop iteration of camera_feed's DahengCameraThread every command
application strictly precedes the acquire call of that iteration. -/
theorem C8_fifo_before_acquire (st : FeedDhState) (flipMode : String)
    (acq : Option (Int × Int))
    (encOk softOffOk softOnOk reopenOk escOnOk : Bool) (e g : Rat) :
    ((applyPending st).appliedLog = st.appliedLog ++ st.cmdQueue) ∧
    ((applyPending st).cmdQueue = []) ∧
    ((applyPending (feedDhSetGain g (feedDhSetExposure e st))).appliedLog =
      st.appliedLog ++ st.cmdQueue ++ [Cmd.setExposure e, Cmd.setGain g]) ∧
    (∃ tl,
      (feedDhLoopIter flipMode acq encOk softOffOk softOnOk reopenOk
          escOnOk st).2 =
        st.cmdQueue.map LoopEvent.applyCmdEv ++ LoopEvent.acquireEv :: tl) := by
  refine ⟨?_, ?_, ?_, ?_⟩
  · simpa [applyPending] using
      applyCmds_appliedLog st.cmdQueue { st with cmdQueue := [] }
  · simpa [applyPending] using
      applyCmds_cmdQueue st.cmdQueue { st with cmdQueue := [] }
  · simp only [applyPending, feedDhSetGain, feedDhSetExposure]
    rw [applyCmds_appliedLog]
    simp
  · have hcap : ∃ tl,
        (feedCaptureOnce flipMode acq encOk (applyPending st)).2 =
          LoopEvent.acquireEv :: tl := by
      cases acq with
      | none => exact ⟨[], rfl⟩
      | some shape =>
        by_cases hok : encOk
        · subst hok; exact ⟨_, rfl⟩
        · simp only [Bool.not_eq_true] at hok
          subst hok; exact ⟨_, rfl⟩
    obtain ⟨tl, htl⟩ := hcap
    exact ⟨tl, by simp only [feedDhLoopIter, htl]⟩

/-- Claim C5: once consecutive_empty has reached the threshold
max(10, fps-or-15) with an open handle, the recovery block attempts
exactly one soft restart (stream_off then stream_on on the existing
handle) as its first two backend calls; the reopen escalation appears in
the trace exactly when the soft stream_on raises; a successful soft
restart, or a successful escalation (reopen and stream_on both
succeeding), resets the consecutive-empty counter; and whatever the
oracles, the block never touches the running flag or the stop event, so
only an explicit stop() can end the loop. -/
theorem C5_recovery (softOffOk softOnOk reopenOk escOnOk : Bool)
    (st : FeedDhState)
    (hth : (st.consecutiveEmpty : Int) ≥ recoveryThreshold st.fps)
    (hcam : st.camOpen = true) :
    ((recoveryStep softOffOk softOnOk reopenOk escOnOk st).2.count
        RecEvent.softStreamOn = 1) ∧
    ((recoveryStep softOffOk softOnOk reopenOk escOnOk st).2.take 2 =
      [RecEvent.softStreamOff, RecEvent.softStreamOn]) ∧
    (RecEvent.reopenDevice ∈
        (recoveryStep softOffOk softOnOk reopenOk escOnOk st).2 ↔
      softOnOk = false) ∧
    (softOnOk = true →
      (recoveryStep softOffOk softOnOk reopenOk escOnOk st).2 =
        [RecEvent.softStreamOff, RecEvent.softStreamOn] ∧
      (recoveryStep softOffOk softOnOk reopenOk escOnOk
          st).1.consecutiveEmpty = 0) ∧
    (softOnOk = false → reopenOk = true → escOnOk = true →
      (recoveryStep softOffOk softOnOk reopenOk escOnOk
          st).1.consecutiveEmpty = 0) ∧
    ((recoveryStep softOffOk softOnOk reopenOk escOnOk st).1.running =
      st.running) ∧
    ((recoveryStep softOffOk softOnOk reopenOk escOnOk
        st).1.stopRequested = st.stopRequested) := by
  cases softOnOk <;> cases reopenOk <;> cases escOnOk <;>
    simp [recoveryStep, hth, hcam]

/-- Witness state for C5_recovery: an open session with fps unset whose
consecutive-empty counter has just reached the fallback threshold
max(10, 15) = 15. -/
def c5WitState : FeedDhState :=
  { running := true, stopRequested := false, camOpen := true, camGen := 1,
    threadAlive := true, latest := none, width := none, height := none,
    fps := none, safeMode := false, cmdQueue := [], appliedLog := [],
    consecutiveEmpty := 15, exposure := none, gain := none }

/-- Witness for C5_recovery: at the concrete stalled state, with the
soft restart failing and the escalation also failing, the trace opens
with the single soft restart, the escalation was attempted, and the loop
flags are untouched. -/
theorem C5_witness :
    (recoveryStep true false false false c5WitState).2.take 2 =
      [RecEvent.softStreamOff, RecEvent.softStreamOn] ∧
    RecEvent.reopenDevice ∈ (recoveryStep true false false false c5WitState).2 ∧
    (recoveryStep true false false false c5WitState).1.running = true := by
  have h := C5_recovery true false false false c5WitState (by decide) (by decide)
  exact ⟨h.2.1, h.2.2.1.mpr rfl, h.2.2.2.2.2.1⟩

/-- Claim C9: for every invalid device selector — no devices found, a
device that cannot be opened, or a 1-based index out of range —
camera_web's DahengCameraThread.start returns a fatal error
synchronously and the resulting state has running still false and no
acquisition thread; the same holds for camera_feed's
DahengCameraThread.start (no devices, or open failure) and for
camera_feed's OpenCVCameraThread.start (open failure). -/
theorem C9_invalid_start (num : Nat) (openOk streamOk : Bool)
    (st : WebDhState) (st2 : FeedDhState) (st3 : WebCamState) :
    (st.running = false → st.threadAlive = false →
      (num = 0 ∨ openOk = false ∨
        (st.serial = none ∧ (st.index < 1 ∨ st.index > (num : Int)))) →
      (webDhStart num openOk streamOk st).1.isSome = true ∧
      (webDhStart num openOk streamOk st).2.running = false ∧
      (webDhStart num openOk streamOk st).2.threadAlive = false) ∧
    (st2.running = false → st2.threadAlive = false →
      (num = 0 ∨ openOk = false) →
      (feedDhStart num openOk streamOk st2).1.isSome = true ∧
      (feedDhStart num openOk streamOk st2).2.running = false ∧
      (feedDhStart num openOk streamOk st2).2.threadAlive = false) ∧
    (st3.running = false → st3.threadAlive = false →
      (feedCvStart true false st3).1.isSome = true ∧
      (feedCvStart true false st3).2.running = false ∧
      (feedCvStart true false st3).2.threadAlive = false) := by
  refine ⟨?_, ?_, ?_⟩
  · intro hr ht hinv
    simp only [webDhStart]
    rcases hinv with h0 | hopen | ⟨hser, hidx⟩
    · simp [h0, hr, ht]
    · by_cases h0 : num = 0
      · simp [h0, hr, ht]
      · cases hs : st.serial with
        | some s => simp [h0, hs, hopen, hr, ht]
        | none =>
          by_cases hidx : st.index < 1 ∨ st.index > (num : Int)
          · simp [h0, hs, hidx, hr, ht]
          · simp [h0, hs, hidx, hopen, hr, ht]
    · by_cases h0 : num = 0
      · simp [h0, hr, ht]
      · simp [h0, hser, hidx, hr, ht]
  · intro hr ht hinv
    simp only [feedDhStart, hr]
    rcases hinv with h0 | hopen
    · simp [h0, hr, ht]
    · by_cases h0 : num = 0
      · simp [h0, hr, ht]
      · simp [h0, hopen, hr, ht]
  · intro hr ht
    simp [feedCvStart, hr, ht]

/-- Witness state for C9_invalid_start: a freshly constructed
camera_feed Daheng session that has never been started. -/
def c9FeedInit : FeedDhState :=
  { running := false, stopRequested := false, camOpen := false,
    camGen := 0, threadAlive := false, latest := none, width := none,
    height := none, fps := none, safeMode := false, cmdQueue := [],
    appliedLog := [], consecutiveEmpty := 0, exposure := none,
    gain := none }

/-- Witness for C9_invalid_start at concrete states: a Daheng selector
with index 5 against 2 detected devices errors out of start() with
running still false; the same start-state invariants hold for the
camera_feed variants with an open failure. -/
theorem C9_witness :
    (webDhStart 2 true true
        { running := false, threadAlive := false, devOpen := false,
          devGen := 0, serial := none, index := 5,
          noBuffer := false }).1.isSome = true ∧
    (webDhStart 2 true true
        { running := false, threadAlive := false, devOpen := false,
          devGen := 0, serial := none, index := 5,
          noBuffer := false }).2.running = false ∧
    (feedDhStart 0 true true c9FeedInit).1.isSome = true ∧
    (feedCvStart true false (webInit none none none false)).2.running =
      false := by
  have h := C9_invalid_start 2 true true
    { running := false, threadAlive := false, devOpen := false,
      devGen := 0, serial := none, index := 5, noBuffer := false }
    c9FeedInit (webInit none none none false)
  have hz := C9_invalid_start 0 true true
    { running := false, threadAlive := false, devOpen := false,
      devGen := 0, serial := none, index := 5, noBuffer := false }
    c9FeedInit (webInit none none none false)
  have h1 := h.1 rfl rfl (Or.inr (Or.inr ⟨rfl, Or.inr (by decide)⟩))
  have h2 := hz.2.1 rfl rfl (Or.inl rfl)
  have h3 := h.2.2 rfl rfl
  exact ⟨h1.1, h1.2.1, h2.1, h3.2.1⟩

/-- Membership in the crop-stage trace piece. -/
theorem mem_trCropFn (e : LoopEvent) (roi : Option Roi) :
    e ∈ trCropFn roi ↔ (roi.isSome = true ∧ e = LoopEvent.cropEv) := by
  cases roi <;> simp [trCropFn]

/-- Membership in the flip-stage trace piece. -/
theorem mem_trFlipFn (e : LoopEvent) (mode : String) :
    e ∈ trFlipFn mode ↔
      ((mode = "h" ∨ mode = "v" ∨ mode = "hv" ∨ mode = "vh" ∨
        mode = "both") ∧ e = LoopEvent.flipEv) := by
  unfold trFlipFn
  split_ifs with hc <;> simp [hc]

/-- Membership in the downscale-stage trace piece. -/
theorem mem_trDownFn (e : LoopEvent) (d : Int) :
    e ∈ trDownFn d ↔ (d > 1 ∧ e = LoopEvent.downscaleEv) := by
  unfold trDownFn
  split_ifs with hc <;> simp [hc]

/-- Both metric-update helpers keep the frame counter unchanged. -/
theorem metricsUpd_frameCounter (t : Rat) (st : WebLoopState) :
    (skipMetricsUpd t st).frameCounter = st.frameCounter ∧
    (runMetricsUpd t st).frameCounter = st.frameCounter := by
  constructor <;>
    (cases h : st.lastTimestamp <;>
      simp [skipMetricsUpd, runMetricsUpd, h] <;> split_ifs <;> rfl)

/-- Configuration used by the C3 counterexample: a ROI, a horizontal
flip and a 2× downscale are all configured, with frame_skip = 2. -/
def c3Cfg : WebCfg :=
  { roi := some ⟨0, 0, 10, 10⟩, flipMode := "h", downscale := 2,
    frameSkip := 2, jpegQuality := 80 }

/-- Loop state used by the C3 counterexample: one frame has already
been processed (counter 1) and a previous timestamp exists. -/
def c3St : WebLoopState :=
  { frameCounter := 1, latestJpeg := none, framesTotal := 0,
    lastTimestamp := some 0, frameIntervalMs := 0, fpsEma := 0 }

/-- Claim C3 as stated is false on the code, in two ways.  First, on a
skipped iteration (counter becomes 2, 2 mod 3 ≠ 1 with frame_skip = 2)
the transform stages still run: the crop, flip and downscale events all
appear in the trace even though encode and publish are skipped — the
code places the ROI/flip/downscale work before the frame-skip check
(camera_web.py lines 239-256 versus 257-266).  Second, on an iteration
whose cap.read fails the loop counter does not increment (the continue
at line 238 precedes the increment at line 258), so the counter does
not increment on every iteration. -/
theorem C3_counterexample :
    ((c3St.frameCounter + 1) % (c3Cfg.frameSkip + 1) ≠ 1) ∧
    LoopEvent.cropEv ∈ (webLoopIter c3Cfg c3St (some (480, 640)) true 1 1).2 ∧
    LoopEvent.flipEv ∈ (webLoopIter c3Cfg c3St (some (480, 640)) true 1 1).2 ∧
    LoopEvent.downscaleEv ∈
      (webLoopIter c3Cfg c3St (some (480, 640)) true 1 1).2 ∧
    LoopEvent.encodeEv ∉ (webLoopIter c3Cfg c3St (some (480, 640)) true 1 1).2 ∧
    LoopEvent.publishEv ∉
      (webLoopIter c3Cfg c3St (some (480, 640)) true 1 1).2 ∧
    (webLoopIter c3Cfg c3St none true 1 1).1.frameCounter =
      c3St.frameCounter := by
  decide

/-- Claim C3 amended: with frame_skip = k > 0, on every iteration whose
acquisition succeeds the counter increments by 1; encode runs exactly on
iterations where the incremented counter mod (k+1) equals 1, and publish
additionally requires encode success; the inter-frame-interval metric is
updated on every successfully-acquiring iteration, skipped or not; but
the transform stages (crop when a ROI is configured — likewise flip and
downscale) run on every successfully-acquiring iteration regardless of
the skip decision, since the code performs them before the frame-skip
check.  Iterations whose acquisition fails leave the counter and metrics
untouched. -/
theorem C3_amended (cfg : WebCfg) (st : WebLoopState) (shape : Int × Int)
    (encOk : Bool) (t1 t2 : Rat) (hk : cfg.frameSkip ≠ 0) :
    ((webLoopIter cfg st (some shape) encOk t1 t2).1.frameCounter =
      st.frameCounter + 1) ∧
    (LoopEvent.encodeEv ∈ (webLoopIter cfg st (some shape) encOk t1 t2).2 ↔
      (st.frameCounter + 1) % (cfg.frameSkip + 1) = 1) ∧
    (LoopEvent.publishEv ∈ (webLoopIter cfg st (some shape) encOk t1 t2).2 ↔
      ((st.frameCounter + 1) % (cfg.frameSkip + 1) = 1 ∧ encOk = true)) ∧
    (LoopEvent.intervalEv ∈ (webLoopIter cfg st (some shape) encOk t1 t2).2) ∧
    (cfg.roi.isSome = true →
      LoopEvent.cropEv ∈ (webLoopIter cfg st (some shape) encOk t1 t2).2) ∧
    ((webLoopIter cfg st none encOk t1 t2).1 = st) := by
  have hfc1 : ∀ s : WebLoopState,
      (runMetricsUpd t1 s).frameCounter = s.frameCounter :=
    fun s => (metricsUpd_frameCounter t1 s).2
  have hfc2 : ∀ s : WebLoopState,
      (skipMetricsUpd t2 s).frameCounter = s.frameCounter :=
    fun s => (metricsUpd_frameCounter t2 s).1
  by_cases hmod : (st.frameCounter + 1) % (cfg.frameSkip + 1) = 1
  · refine ⟨?_, ?_, ?_, ?_, ?_, rfl⟩
    · cases encOk <;> simp [webLoopIter, hk, hmod, hfc1]
    · simp [webLoopIter, hk, hmod, mem_trCropFn, mem_trFlipFn, mem_trDownFn]
    · cases encOk <;>
        simp [webLoopIter, hk, hmod, mem_trCropFn, mem_trFlipFn, mem_trDownFn]
    · simp [webLoopIter, hk, hmod]
    · intro hroi
      simp [webLoopIter, hk, hmod, mem_trCropFn, hroi]
  · refine ⟨?_, ?_, ?_, ?_, ?_, rfl⟩
    · simp [webLoopIter, hk, hmod, hfc2]
    · simp [webLoopIter, hk, hmod, mem_trCropFn, mem_trFlipFn, mem_trDownFn]
    · simp [webLoopIter, hk, hmod, mem_trCropFn, mem_trFlipFn, mem_trDownFn]
    · simp [webLoopIter, hk, hmod]
    · intro hroi
      simp [webLoopIter, hk, hmod, mem_trCropFn, hroi]

/-- Witness for C3_amended at frame_skip = 2 on a skipped iteration
(counter 1 → 2): the counter advanced, no encode happened, the interval
metric event is present and the crop stage ran. -/
theorem C3_amended_witness :
    (webLoopIter c3Cfg c3St (some (480, 640)) true 1 1).1.frameCounter = 2 ∧
    ¬ LoopEvent.encodeEv ∈
      (webLoopIter c3Cfg c3St (some (480, 640)) true 1 1).2 ∧
    LoopEvent.intervalEv ∈
      (webLoopIter c3Cfg c3St (some (480, 640)) true 1 1).2 ∧
    LoopEvent.cropEv ∈
      (webLoopIter c3Cfg c3St (some (480, 640)) true 1 1).2 := by
  have h := C3_amended c3Cfg c3St (480, 640) true 1 1 (by decide)
  refine ⟨h.1, ?_, h.2.2.2.1, h.2.2.2.2.1 rfl⟩
  intro hmem
  exact absurd (h.2.1.mp hmem) (by decide)

end OtmPi
